import Mathlib

/-!
# Sparkle: the JNI bridge of `src/spark/SparkClasses.c`

A shallow embedding of the C bridge that drives Spark through JNI.

* The managed runtime is a state `JEnv` (heap, pending exception, diagnostic
  output, log of managed invocations) that every function takes and returns.
* What the Java side does (which classes and methods exist, whether an
  allocation succeeds, what a method body returns or throws) is a parameter
  `JVM`.
* The JNI functions the C code calls (`FindClass`, `GetMethodID`, ...) are
  modelled after the JNI specification.  A call the JNI specification leaves
  undefined (a NULL class, method id, receiver or array, an array of the wrong
  element type, a read past the host buffer) ends the run with a `Fault` that
  names the offending call.  The JNI rule that most functions must not be
  called while an exception is pending is NOT enforced: the model only tracks
  the pending exception.
* The C functions of the file are translated one by one on top of these.
-/

namespace Sparkle

/-! ## Data model -/

/-- Element type of a primitive managed array. -/
inductive PrimType
  | int
  | byte
  | double
  deriving DecidableEq

/-- Managed objects.  Array elements are kept as integers: an int32 value, a
byte value, or the 64-bit pattern of a double. -/
inductive JObject
  | array (ty : PrimType) (elems : List Int)
  | string (s : String)
  | object (cls : String) (data : List Int)
  deriving DecidableEq

/-- A `jobject`: `none` is NULL, `some i` refers to slot `i` of the heap. -/
abbrev JRef := Option Nat

/-- A `jclass`: `none` is NULL, `some c` the class named `c`. -/
abbrev JClass := Option String

/-- A resolved method. -/
structure MethodID where
  cls : String
  name : String
  sig : String
  isStatic : Bool
  deriving DecidableEq

/-- A `jmethodID`: `none` is NULL. -/
abbrev JMethodID := Option MethodID

/-- The JNI calls that have a precondition on their arguments, with the
arguments they were given. -/
inductive JCall
  | GetMethodID (cls : JClass) (name sig : String)
  | GetStaticMethodID (cls : JClass) (name sig : String)
  | NewObjectA (cls : JClass) (mid : JMethodID) (args : List JRef)
  | CallObjectMethodA (obj : JRef) (mid : JMethodID) (args : List JRef)
  | CallStaticObjectMethodA (cls : JClass) (mid : JMethodID) (args : List JRef)
  | SetArrayRegion (ty : PrimType) (arr : JRef) (start len : Int)
  | GetArrayLength (arr : JRef)
  | GetIntArrayElements (arr : JRef)
  deriving DecidableEq

/-- What a managed method body does: return a reference (possibly null) or
throw. -/
inductive Outcome
  | ret (r : JRef)
  | throw (exc : String)
  deriving DecidableEq

/-- One managed invocation that was carried out: the call, the heap it ran on
and its outcome. -/
structure Invocation where
  call : JCall
  heap : List JObject
  outcome : Outcome
  deriving DecidableEq

/-- The Java side of the bridge. -/
structure JVM where
  /-- Names of the classes `FindClass` can load. -/
  classes : List String
  /-- Instance methods and constructors: class, name, signature. -/
  methods : List (String × String × String)
  /-- Static methods: class, name, signature. -/
  staticMethods : List (String × String × String)
  /-- Whether an array of the given type and length can be allocated. -/
  allocOk : PrimType → Nat → List JObject → Bool
  /-- Body of a method: receiver, arguments, heap to outcome and new heap. -/
  invoke : MethodID → JRef → List JRef → List JObject → Outcome × List JObject

/-- The state seen through a `JNIEnv*`. -/
structure JEnv where
  attached : Bool
  heap : List JObject
  pending : Option String
  out : List String
  trace : List Invocation
  deriving DecidableEq

/-- A JNI call whose behaviour the JNI specification leaves undefined, and the
state it was made in. -/
structure Fault where
  call : JCall
  env : JEnv
  deriving DecidableEq

/-- The call is one of the three managed invocations and its class, receiver
or method id is NULL. -/
def JCall.invokesNull : JCall → Bool
  | .NewObjectA cls mid _ => cls.isNone || mid.isNone
  | .CallObjectMethodA obj mid _ => obj.isNone || mid.isNone
  | .CallStaticObjectMethodA cls mid _ => cls.isNone || mid.isNone
  | _ => false

/-- The call reads a managed array through a NULL reference. -/
def JCall.readsNullArray : JCall → Bool
  | .GetArrayLength arr => arr.isNone
  | .GetIntArrayElements arr => arr.isNone
  | _ => false

/-! ## Machine integers -/

/-- Conversion of a C `long` to `size_t` (64 bits). -/
def toSizeT (n : Int) : Nat := (n % 2 ^ 64).toNat

/-- Conversion of a `size_t` to `jsize`, a signed 32-bit integer. -/
def toJsize (n : Nat) : Int :=
  if n % 2 ^ 32 < 2 ^ 31 then ((n % 2 ^ 32 : Nat) : Int)
  else ((n % 2 ^ 32 : Nat) : Int) - 2 ^ 32

/-- Rendering of a `size_t` by the `%zd` conversion (signed, 64 bits). -/
def fmtZd (n : Nat) : String :=
  if n % 2 ^ 64 < 2 ^ 63 then toString (n % 2 ^ 64)
  else toString (((n % 2 ^ 64 : Nat) : Int) - 2 ^ 64)

/-! ## The JNI functions used by the bridge -/

/-- The diagnostic sink: `printf`. -/
def printf (msg : String) (env : JEnv) : JEnv :=
  { env with out := env.out ++ [msg] }

/-- JNI function `FindClass`: the class, or NULL with `NoClassDefFoundError` pending. -/
def FindClass (vm : JVM) (name : String) (env : JEnv) : JClass × JEnv :=
  if name ∈ vm.classes then (some name, env)
  else (none, { env with pending := some "java/lang/NoClassDefFoundError" })

/-- JNI function `GetMethodID`: the method id, or NULL with `NoSuchMethodError` pending. -/
def GetMethodID (vm : JVM) (cls : JClass) (name sig : String) (env : JEnv) :
    Except Fault (JMethodID × JEnv) :=
  match cls with
  | none => .error ⟨.GetMethodID none name sig, env⟩
  | some c =>
    if (c, name, sig) ∈ vm.methods then .ok (some ⟨c, name, sig, false⟩, env)
    else .ok (none, { env with pending := some "java/lang/NoSuchMethodError" })

/-- JNI function `GetStaticMethodID`: as `GetMethodID`, for static methods. -/
def GetStaticMethodID (vm : JVM) (cls : JClass) (name sig : String) (env : JEnv) :
    Except Fault (JMethodID × JEnv) :=
  match cls with
  | none => .error ⟨.GetStaticMethodID none name sig, env⟩
  | some c =>
    if (c, name, sig) ∈ vm.staticMethods then .ok (some ⟨c, name, sig, true⟩, env)
    else .ok (none, { env with pending := some "java/lang/NoSuchMethodError" })

/-- Run a method body and record the invocation.  A thrown exception becomes
pending and the call yields NULL. -/
def runInvocation (vm : JVM) (call : JCall) (m : MethodID) (recv : JRef)
    (args : List JRef) (env : JEnv) : JRef × JEnv :=
  match vm.invoke m recv args env.heap with
  | (.ret r, heap) =>
    (r, { env with heap := heap, trace := env.trace ++ [⟨call, env.heap, .ret r⟩] })
  | (.throw e, heap) =>
    (none, { env with heap := heap, pending := some e,
                      trace := env.trace ++ [⟨call, env.heap, .throw e⟩] })

/-- JNI function `NewObjectA`: construct an object. -/
def NewObjectA (vm : JVM) (cls : JClass) (mid : JMethodID) (args : List JRef)
    (env : JEnv) : Except Fault (JRef × JEnv) :=
  match cls, mid with
  | some _, some m => .ok (runInvocation vm (.NewObjectA cls mid args) m none args env)
  | _, _ => .error ⟨.NewObjectA cls mid args, env⟩

/-- JNI function `CallObjectMethodA`: call an instance method. -/
def CallObjectMethodA (vm : JVM) (obj : JRef) (mid : JMethodID) (args : List JRef)
    (env : JEnv) : Except Fault (JRef × JEnv) :=
  match obj, mid with
  | some _, some m => .ok (runInvocation vm (.CallObjectMethodA obj mid args) m obj args env)
  | _, _ => .error ⟨.CallObjectMethodA obj mid args, env⟩

/-- JNI function `CallStaticObjectMethodA`: call a static method. -/
def CallStaticObjectMethodA (vm : JVM) (cls : JClass) (mid : JMethodID)
    (args : List JRef) (env : JEnv) : Except Fault (JRef × JEnv) :=
  match cls, mid with
  | some _, some m =>
    .ok (runInvocation vm (.CallStaticObjectMethodA cls mid args) m none args env)
  | _, _ => .error ⟨.CallStaticObjectMethodA cls mid args, env⟩

/-- JNI function `NewStringUTF`: allocate a managed string. -/
def NewStringUTF (str : String) (env : JEnv) : JRef × JEnv :=
  (some env.heap.length, { env with heap := env.heap ++ [.string str] })

/-- JNI function `New<Type>Array`: a zero-filled array of `len` elements, or NULL with an
exception pending when `len` is negative or the allocation fails. -/
def NewPrimArray (vm : JVM) (ty : PrimType) (len : Int) (env : JEnv) : JRef × JEnv :=
  if len < 0 then
    (none, { env with pending := some "java/lang/NegativeArraySizeException" })
  else if vm.allocOk ty len.toNat env.heap then
    (some env.heap.length,
      { env with heap := env.heap ++ [.array ty (List.replicate len.toNat 0)] })
  else (none, { env with pending := some "java/lang/OutOfMemoryError" })

/-- JNI function `NewIntArray`. -/
def NewIntArray (vm : JVM) (len : Int) (env : JEnv) : JRef × JEnv :=
  NewPrimArray vm .int len env

/-- JNI function `NewByteArray`. -/
def NewByteArray (vm : JVM) (len : Int) (env : JEnv) : JRef × JEnv :=
  NewPrimArray vm .byte len env

/-- JNI function `Set<Type>ArrayRegion`: copy `len` elements of the host buffer `buf` into
the array at `start`.  A region outside the array raises
`ArrayIndexOutOfBoundsException`. -/
def SetArrayRegion (ty : PrimType) (arr : JRef) (start len : Int) (buf : List Int)
    (env : JEnv) : Except Fault JEnv :=
  match arr with
  | none => .error ⟨.SetArrayRegion ty none start len, env⟩
  | some a =>
    match env.heap[a]? with
    | some (.array ty1 elems) =>
      if ty1 ≠ ty then .error ⟨.SetArrayRegion ty arr start len, env⟩
      else if start < 0 ∨ len < 0 ∨ (elems.length : Int) < start + len then
        .ok { env with pending := some "java/lang/ArrayIndexOutOfBoundsException" }
      else if buf.length < len.toNat then .error ⟨.SetArrayRegion ty arr start len, env⟩
      else
        .ok { env with
              heap := env.heap.set a (.array ty (elems.take start.toNat ++ buf.take len.toNat
                                        ++ elems.drop (start.toNat + len.toNat))) }
    | _ => .error ⟨.SetArrayRegion ty arr start len, env⟩

/-- JNI function `SetIntArrayRegion`. -/
def SetIntArrayRegion (arr : JRef) (start len : Int) (buf : List Int) (env : JEnv) :
    Except Fault JEnv :=
  SetArrayRegion .int arr start len buf env

/-- JNI function `SetByteArrayRegion`. -/
def SetByteArrayRegion (arr : JRef) (start len : Int) (buf : List Int) (env : JEnv) :
    Except Fault JEnv :=
  SetArrayRegion .byte arr start len buf env

/-- JNI function `SetDoubleArrayRegion`. -/
def SetDoubleArrayRegion (arr : JRef) (start len : Int) (buf : List Int) (env : JEnv) :
    Except Fault JEnv :=
  SetArrayRegion .double arr start len buf env

/-- JNI function `GetArrayLength`. -/
def GetArrayLength (arr : JRef) (env : JEnv) : Except Fault Nat :=
  match arr with
  | none => .error ⟨.GetArrayLength none, env⟩
  | some a =>
    match env.heap[a]? with
    | some (.array _ elems) => .ok elems.length
    | _ => .error ⟨.GetArrayLength arr, env⟩

/-- JNI function `GetIntArrayElements`: the elements of an int array, as a host buffer.
The copy itself is taken to succeed. -/
def GetIntArrayElements (arr : JRef) (env : JEnv) : Except Fault (List Int) :=
  match arr with
  | none => .error ⟨.GetIntArrayElements none, env⟩
  | some a =>
    match env.heap[a]? with
    | some (.array .int elems) => .ok elems
    | _ => .error ⟨.GetIntArrayElements arr, env⟩

/-- JNI function `ExceptionOccurred`: the pending exception, or NULL. -/
def ExceptionOccurred (env : JEnv) : Option String := env.pending

/-- JNI function `ExceptionDescribe`: print the pending exception; the JNI specification
has it clear the exception as a side effect. -/
def ExceptionDescribe (env : JEnv) : JEnv :=
  match env.pending with
  | some e => { env with out := env.out ++ ["Exception in thread: " ++ e], pending := none }
  | none => env

/-- JNI function `ExceptionClear`. -/
def ExceptionClear (env : JEnv) : JEnv := { env with pending := none }

/-! ## The bridge: `src/spark/SparkClasses.c` -/

/-- C function `jniEnv`: the environment of the calling thread, attaching the thread
when it is detached. -/
def jniEnv (env : JEnv) : JEnv :=
  if env.attached then env else { env with attached := true }

/-- C function `findClass`. -/
def findClass (vm : JVM) (java_class : String) (env : JEnv) : JClass × JEnv :=
  let env := jniEnv env
  let (cls, env) := FindClass vm java_class env
  if cls.isNone then
    (none, printf ("!! sparkle: Couldn't find Java class " ++ java_class ++ "\n") env)
  else (cls, env)

/-- C function `findMethod`. -/
def findMethod (vm : JVM) (java_class : JClass) (method_name sig : String) (env : JEnv) :
    Except Fault (JMethodID × JEnv) := do
  let env := jniEnv env
  let (mid, env) ← GetMethodID vm java_class method_name sig env
  if mid.isNone then
    pure (none, printf ("!! sparkle: Couldn't find method " ++ method_name
                          ++ " with signature " ++ sig) env)
  else pure (mid, env)

/-- C function `findStaticMethod`. -/
def findStaticMethod (vm : JVM) (java_class : JClass) (method_name sig : String)
    (env : JEnv) : Except Fault (JMethodID × JEnv) := do
  let env := jniEnv env
  let (mid, env) ← GetStaticMethodID vm java_class method_name sig env
  if mid.isNone then
    pure (none, printf ("!! sparkle: Couldn't find static method " ++ method_name
                          ++ " with signature " ++ sig) env)
  else pure (mid, env)

/-- C function `callObjectMethod`. -/
def callObjectMethod (vm : JVM) (obj : JRef) (method : JMethodID) (args : List JRef)
    (env : JEnv) : Except Fault (JRef × JEnv) :=
  CallObjectMethodA vm obj method args (jniEnv env)

/-- C function `callStaticObjectMethod`. -/
def callStaticObjectMethod (vm : JVM) (java_class : JClass) (method : JMethodID)
    (args : List JRef) (env : JEnv) : Except Fault (JRef × JEnv) :=
  CallStaticObjectMethodA vm java_class method args (jniEnv env)

/-- C function `newObject`. -/
def newObject (vm : JVM) (java_class : JClass) (sig : String) (args : List JRef)
    (env : JEnv) : Except Fault (JRef × JEnv) := do
  let env := jniEnv env
  let (constr, env) ← findMethod vm java_class "<init>" sig env
  let (obj, env) ← NewObjectA vm java_class constr args env
  if obj.isNone then
    pure (none, printf ("!! sparkle: Constructor with signature " ++ sig ++ " failed\n") env)
  else pure (obj, env)

/-- C function `newString`. -/
def newString (str : String) (env : JEnv) : JRef × JEnv :=
  NewStringUTF str (jniEnv env)

/-- C function `newIntArray`.  `size` is a `size_t`; the JNI functions take a `jsize`. -/
def newIntArray (vm : JVM) (size : Nat) (data : List Int) (env : JEnv) :
    Except Fault (JRef × JEnv) := do
  let env := jniEnv env
  let (arr, env) := NewIntArray vm (toJsize size) env
  if arr.isNone then
    pure (none, printf ("!! sparkle: jintArray of size " ++ fmtZd size
                          ++ " cannot be allocated") env)
  else
    let env ← SetIntArrayRegion arr 0 (toJsize size) data env
    pure (arr, env)

/-- C function `newByteArray`. -/
def newByteArray (vm : JVM) (size : Nat) (data : List Int) (env : JEnv) :
    Except Fault (JRef × JEnv) := do
  let env := jniEnv env
  let (arr, env) := NewByteArray vm (toJsize size) env
  if arr.isNone then
    pure (none, printf ("!! sparkle: jbyteArray of size " ++ fmtZd size
                          ++ " cannot be allocated") env)
  else
    let env ← SetByteArrayRegion arr 0 (toJsize size) data env
    pure (arr, env)

/-- C function `newDoubleArray`.  The array is allocated with `NewByteArray`, as in the
source, and filled with `SetDoubleArrayRegion`. -/
def newDoubleArray (vm : JVM) (size : Nat) (data : List Int) (env : JEnv) :
    Except Fault (JRef × JEnv) := do
  let env := jniEnv env
  let (arr, env) := NewByteArray vm (toJsize size) env
  if arr.isNone then
    pure (none, printf ("!! sparkle: jdoubleArray of size " ++ fmtZd size
                          ++ " cannot be allocated") env)
  else
    let env ← SetDoubleArrayRegion arr 0 (toJsize size) data env
    pure (arr, env)

/-- Signature of `SparkConf.setAppName`. -/
def sigSetAppName : String := "(Ljava/lang/String;)Lorg/apache/spark/SparkConf;"

/-- Signature of `Helper.parallelize`. -/
def sigParallelize : String :=
  "(Lorg/apache/spark/api/java/JavaSparkContext;[I)Lorg/apache/spark/api/java/JavaRDD;"

/-- Signature of `Helper.collect`. -/
def sigCollect : String := "(Lorg/apache/spark/api/java/JavaRDD;)[I"

/-- Signature of `Helper.map`. -/
def sigMap : String :=
  "(Lorg/apache/spark/api/java/JavaRDD;[B)Lorg/apache/spark/api/java/JavaRDD;"

/-- C function `newSparkConf`. -/
def newSparkConf (vm : JVM) (appname : String) (env : JEnv) :
    Except Fault (JRef × JEnv) := do
  let (spark_conf_class, env) := findClass vm "org/apache/spark/SparkConf" env
  let (spark_conf_set_appname, env) ←
    findMethod vm spark_conf_class "setAppName" sigSetAppName env
  let (conf, env) ← newObject vm spark_conf_class "()V" [] env
  let (jappname, env) := newString appname env
  let (_, env) ← callObjectMethod vm conf spark_conf_set_appname [jappname] env
  pure (conf, env)

/-- C function `newSparkContext`. -/
def newSparkContext (vm : JVM) (sparkConf : JRef) (env : JEnv) :
    Except Fault (JRef × JEnv) :=
  let (cls, env) := findClass vm "org/apache/spark/api/java/JavaSparkContext" env
  newObject vm cls "(Lorg/apache/spark/SparkConf;)V" [sparkConf] env

/-- C function `parallelize`. -/
def parallelize (vm : JVM) (sparkContext : JRef) (data : List Int) (data_length : Nat)
    (env : JEnv) : Except Fault (JRef × JEnv) := do
  let env := jniEnv env
  let (spark_helper_class, env) := findClass vm "Helper" env
  let (spark_helper_parallelize, env) ←
    findStaticMethod vm spark_helper_class "parallelize" sigParallelize env
  let (finalData, env) ← newIntArray vm data_length data env
  let (resultRDD, env) ←
    callStaticObjectMethod vm spark_helper_class spark_helper_parallelize
      [sparkContext, finalData] env
  if resultRDD.isNone then
    let env := printf "!! sparkle: parallelize() returned NULL\n" env
    if (ExceptionOccurred env).isSome then
      pure (none, ExceptionClear (ExceptionDescribe env))
    else pure (resultRDD, env)
  else pure (resultRDD, env)

/-- The caller's output cells of `collect`: `*buf` (the buffer it points to)
and `*len`. -/
structure OutCells where
  buf : List Int
  len : Nat
  deriving DecidableEq

/-- The end of `collect`: read the length and the elements of the array and
store them in the output cells.  The buffer obtained from `malloc` is
overwritten by the pointer `GetIntArrayElements` returns and plays no part. -/
def collectRead (elements : JRef) (env : JEnv) : Except Fault (OutCells × JEnv) := do
  let len ← GetArrayLength elements env
  let finalArr ← GetIntArrayElements elements env
  pure ({ buf := finalArr, len := len }, env)

/-- C function `collect`.  The cells `*buf` and `*len` are passed in and returned. -/
def collect (vm : JVM) (rdd : JRef) (cells : OutCells) (env : JEnv) :
    Except Fault (OutCells × JEnv) := do
  let env := jniEnv env
  let (spark_helper_class, env) := findClass vm "Helper" env
  let (spark_helper_collect, env) ←
    findStaticMethod vm spark_helper_class "collect" sigCollect env
  let (elements, env) ←
    callStaticObjectMethod vm spark_helper_class spark_helper_collect [rdd] env
  if elements.isNone then
    let env := printf "!! sparkle: collect() returned NULL\n" env
    if (ExceptionOccurred env).isSome then
      pure (cells, ExceptionClear (ExceptionDescribe env))
    else collectRead elements env
  else collectRead elements env

/-- C function `rddmap`.  `closSize` is a `long`, converted to the `size_t` parameter of
`newByteArray`. -/
def rddmap (vm : JVM) (rdd : JRef) (clos : List Int) (closSize : Int) (env : JEnv) :
    Except Fault (JRef × JEnv) := do
  let env := jniEnv env
  let (closArr, env) ← newByteArray vm (toSizeT closSize) clos env
  let (spark_helper_class, env) := findClass vm "Helper" env
  let (spark_helper_map, env) ←
    findStaticMethod vm spark_helper_class "map" sigMap env
  let (resultRDD, env) ←
    callStaticObjectMethod vm spark_helper_class spark_helper_map [rdd, closArr] env
  if resultRDD.isNone then
    let env := printf "!! sparkle: map() returned NULL\n" env
    if (ExceptionOccurred env).isSome then
      pure (none, ExceptionClear (ExceptionDescribe env))
    else pure (resultRDD, env)
  else pure (resultRDD, env)

/-! ## Concrete runtimes -/

/-- Class name of the distributed collection. -/
def clsRDD : String := "org/apache/spark/api/java/JavaRDD"

/-- Modelled from the spec: the Java classes the bridge calls (`SparkConf`,
`JavaSparkContext` and the helper class `Helper`) are not part of the C file.
This is the order-preserving local engine of the spec: constructors allocate
an object, `setAppName` returns its receiver, `parallelize` turns an int array
into a collection holding the same elements, `map` keeps the elements (the
closure is taken to be the identity) and `collect` returns them as a new int
array. -/
def localInvoke (m : MethodID) (recv : JRef) (args : List JRef) (heap : List JObject) :
    Outcome × List JObject :=
  if m.name = "<init>" then (.ret (some heap.length), heap ++ [.object m.cls []])
  else if m.name = "setAppName" then (.ret recv, heap)
  else if m.name = "parallelize" then
    match args with
    | [_, some a] =>
      match heap[a]? with
      | some (.array .int xs) => (.ret (some heap.length), heap ++ [.object clsRDD xs])
      | _ => (.throw "java/lang/ClassCastException", heap)
    | _ => (.throw "java/lang/NullPointerException", heap)
  else if m.name = "map" then
    match args with
    | [some r, some _] =>
      match heap[r]? with
      | some (.object _ xs) => (.ret (some heap.length), heap ++ [.object clsRDD xs])
      | _ => (.throw "java/lang/ClassCastException", heap)
    | _ => (.throw "java/lang/NullPointerException", heap)
  else if m.name = "collect" then
    match args with
    | [some r] =>
      match heap[r]? with
      | some (.object _ xs) => (.ret (some heap.length), heap ++ [.array .int xs])
      | _ => (.throw "java/lang/ClassCastException", heap)
    | _ => (.throw "java/lang/NullPointerException", heap)
  else (.throw "java/lang/NoSuchMethodError", heap)

/-- The classes the bridge resolves. -/
def sparkClasses : List String :=
  ["org/apache/spark/SparkConf", "org/apache/spark/api/java/JavaSparkContext", "Helper"]

/-- The constructors and instance methods the bridge resolves. -/
def sparkMethods : List (String × String × String) :=
  [("org/apache/spark/SparkConf", "<init>", "()V"),
   ("org/apache/spark/SparkConf", "setAppName", sigSetAppName),
   ("org/apache/spark/api/java/JavaSparkContext", "<init>", "(Lorg/apache/spark/SparkConf;)V")]

/-- The static methods of the helper class. -/
def sparkStaticMethods : List (String × String × String) :=
  [("Helper", "parallelize", sigParallelize), ("Helper", "collect", sigCollect),
   ("Helper", "map", sigMap)]

/-- A runtime with all classes present, unbounded memory and the local engine. -/
def localVM : JVM :=
  { classes := sparkClasses, methods := sparkMethods, staticMethods := sparkStaticMethods,
    allocOk := fun _ _ _ => true, invoke := localInvoke }

/-- A runtime in which every method body and constructor throws. -/
def throwingVM : JVM :=
  { classes := sparkClasses, methods := sparkMethods, staticMethods := sparkStaticMethods,
    allocOk := fun _ _ _ => true,
    invoke := fun _ _ _ heap => (.throw "org/apache/spark/SparkException", heap) }

/-- A runtime in which every method returns null without throwing. -/
def nullVM : JVM :=
  { classes := sparkClasses, methods := sparkMethods, staticMethods := sparkStaticMethods,
    allocOk := fun _ _ _ => true, invoke := fun _ _ _ heap => (.ret none, heap) }

/-- A runtime in which none of the classes can be loaded. -/
def bareVM : JVM :=
  { classes := [], methods := [], staticMethods := [],
    allocOk := fun _ _ _ => true, invoke := localInvoke }

/-- An attached environment with an empty heap and nothing pending. -/
def env0 : JEnv :=
  { attached := true, heap := [], pending := none, out := [], trace := [] }

/-! ## Names and predicates used in the statements -/

/-- The helper's `parallelize` method. -/
def midParallelize : MethodID := ⟨"Helper", "parallelize", sigParallelize, true⟩

/-- The helper's `map` method. -/
def midMap : MethodID := ⟨"Helper", "map", sigMap, true⟩

/-- The helper's `collect` method. -/
def midCollect : MethodID := ⟨"Helper", "collect", sigCollect, true⟩

/-- The state in which `collect` receives the result of the helper call. -/
def afterCollectCall (rdd : JRef) (env : JEnv) (heap2 : List JObject) (o : Outcome) : JEnv :=
  { jniEnv env with
    heap := heap2,
    trace := env.trace ++
      [⟨.CallStaticObjectMethodA (some "Helper") (some midCollect) [rdd], env.heap, o⟩] }

/-- Modelled from the spec: the helper class is not part of the C file.  Its
`parallelize` is order-preserving when, given an int array holding `xs`, it
returns a collection holding `xs`. -/
def ParallelizePreservesOrder (vm : JVM) : Prop :=
  ∀ (heap : List JObject) (ctx : JRef) (a : Nat) (xs : List Int),
    heap[a]? = some (.array .int xs) →
    ∃ r heap1, vm.invoke midParallelize none [ctx, some a] heap = (.ret (some r), heap1)
      ∧ heap1[r]? = some (.object clsRDD xs)

/-- Modelled from the spec: the helper's `collect` is order-preserving when,
given a collection holding `xs`, it returns an int array holding `xs`. -/
def CollectPreservesOrder (vm : JVM) : Prop :=
  ∀ (heap : List JObject) (r : Nat) (xs : List Int),
    heap[r]? = some (.object clsRDD xs) →
    ∃ a heap1, vm.invoke midCollect none [some r] heap = (.ret (some a), heap1)
      ∧ heap1[a]? = some (.array .int xs)

/-- An environment whose heap holds one configuration object. -/
def envConf : JEnv :=
  { attached := true, heap := [.object "org/apache/spark/SparkConf" []], pending := none,
    out := [], trace := [] }

/-- An environment whose heap holds one collection of three elements. -/
def envRDD : JEnv :=
  { attached := true, heap := [.object clsRDD [1, 2, 3]], pending := none, out := [],
    trace := [] }

/-- A runtime with all classes present and no method at all. -/
def noMethodVM : JVM :=
  { classes := sparkClasses, methods := [], staticMethods := [],
    allocOk := fun _ _ _ => true, invoke := localInvoke }

/-- An environment holding a configuration object, entered with an exception
already pending. -/
def envPending : JEnv :=
  { attached := true, heap := [.object "org/apache/spark/SparkConf" []],
    pending := some "java/lang/IllegalStateException", out := [], trace := [] }

/-- A runtime whose configuration class has its constructor and no
`setAppName` method. -/
def noSetterVM : JVM :=
  { classes := sparkClasses, methods := [("org/apache/spark/SparkConf", "<init>", "()V")],
    staticMethods := sparkStaticMethods, allocOk := fun _ _ _ => true,
    invoke := localInvoke }

/-- The line `findClass` prints when the class is not found. -/
def msgNoClass (java_class : String) : String :=
  "!! sparkle: Couldn't find Java class " ++ java_class ++ "\n"

/-- The line `findMethod` prints when the method is not found. -/
def msgNoMethod (method_name sig : String) : String :=
  "!! sparkle: Couldn't find method " ++ method_name ++ " with signature " ++ sig

/-- The line `findStaticMethod` prints when the method is not found. -/
def msgNoStaticMethod (method_name sig : String) : String :=
  "!! sparkle: Couldn't find static method " ++ method_name ++ " with signature " ++ sig

/-! ## Basic facts about the model -/

@[simp] theorem jniEnv_heap (env : JEnv) : (jniEnv env).heap = env.heap := by
  unfold jniEnv; split <;> rfl

@[simp] theorem jniEnv_pending (env : JEnv) : (jniEnv env).pending = env.pending := by
  unfold jniEnv; split <;> rfl

@[simp] theorem jniEnv_out (env : JEnv) : (jniEnv env).out = env.out := by
  unfold jniEnv; split <;> rfl

@[simp] theorem jniEnv_trace (env : JEnv) : (jniEnv env).trace = env.trace := by
  unfold jniEnv; split <;> rfl

@[simp] theorem jniEnv_idem (env : JEnv) : jniEnv (jniEnv env) = jniEnv env := by
  unfold jniEnv; split <;> simp

theorem toJsize_of_lt {n : Nat} (h : n < 2 ^ 31) : toJsize n = (n : Int) := by
  have h1 : n % 2 ^ 32 = n := Nat.mod_eq_of_lt (by omega)
  unfold toJsize
  rw [h1, if_pos h]

/-- Filling a freshly allocated array (the last heap slot) from a host buffer
that holds at least `n` elements. -/
theorem SetArrayRegion_fresh (ty : PrimType) (n : Nat) (buf : List Int) (env : JEnv)
    (heap : List JObject) (hbuf : n ≤ buf.length) :
    SetArrayRegion ty (some heap.length) 0 (n : Int) buf
        { env with heap := heap ++ [.array ty (List.replicate n 0)] }
      = .ok { env with heap := heap ++ [.array ty (buf.take n)] } := by
  unfold SetArrayRegion
  simp only [List.getElem?_concat_length, ne_eq, not_true_eq_false, if_false,
    List.length_replicate, Int.toNat_ofNat, Int.toNat_zero, List.take_zero, List.nil_append,
    zero_add]
  have h1 : ¬ ((0 : Int) < 0 ∨ (n : Int) < 0 ∨ (n : Int) < (n : Int)) := by omega
  have h2 : ¬ buf.length < n := by omega
  rw [if_neg h1, if_neg h2]
  have h3 : List.drop n (List.replicate n (0 : Int)) = [] := by
    apply List.drop_eq_nil_of_le; simp
  rw [h3, List.append_nil, List.set_append_right _ _ (le_refl _)]
  simp

/-- Exact result of `newIntArray` when the narrowed size is `n ≥ 0`, the
allocation succeeds and the host buffer holds at least `n` elements. -/
theorem newIntArray_ok (vm : JVM) (size : Nat) (data : List Int) (env : JEnv) (n : Nat)
    (hn : toJsize size = (n : Int)) (ha : vm.allocOk .int n env.heap = true)
    (hb : n ≤ data.length) :
    newIntArray vm size data env
      = .ok (some env.heap.length,
             { jniEnv env with heap := env.heap ++ [.array .int (data.take n)] }) := by
  have h0 : ¬ ((n : Int) < 0) := by omega
  simp only [newIntArray, NewIntArray, NewPrimArray, hn, h0, if_false, Int.toNat_ofNat,
    jniEnv_heap, ha, if_true, Option.isNone_some, SetIntArrayRegion, Bool.false_eq_true]
  rw [SetArrayRegion_fresh .int n data (jniEnv env) env.heap hb]
  rfl

/-- Exact result of `newByteArray`, as `newIntArray_ok`. -/
theorem newByteArray_ok (vm : JVM) (size : Nat) (data : List Int) (env : JEnv) (n : Nat)
    (hn : toJsize size = (n : Int)) (ha : vm.allocOk .byte n env.heap = true)
    (hb : n ≤ data.length) :
    newByteArray vm size data env
      = .ok (some env.heap.length,
             { jniEnv env with heap := env.heap ++ [.array .byte (data.take n)] }) := by
  have h0 : ¬ ((n : Int) < 0) := by omega
  simp only [newByteArray, NewByteArray, NewPrimArray, hn, h0, if_false, Int.toNat_ofNat,
    jniEnv_heap, ha, if_true, Option.isNone_some, SetByteArrayRegion, Bool.false_eq_true]
  rw [SetArrayRegion_fresh .byte n data (jniEnv env) env.heap hb]
  rfl

/-- Reading back an int array the way `collect` does. -/
theorem collectRead_intArray (a : Nat) (xs : List Int) (env : JEnv)
    (h : env.heap[a]? = some (.array .int xs)) :
    collectRead (some a) env = .ok ({ buf := xs, len := xs.length }, env) := by
  simp only [collectRead, GetArrayLength, GetIntArrayElements, h]
  rfl

/-! ## Resolution and exception bookkeeping -/

@[simp] theorem printf_heap (msg : String) (env : JEnv) : (printf msg env).heap = env.heap := rfl

@[simp] theorem printf_pending (msg : String) (env : JEnv) :
    (printf msg env).pending = env.pending := rfl

@[simp] theorem printf_trace (msg : String) (env : JEnv) :
    (printf msg env).trace = env.trace := rfl

@[simp] theorem ExceptionClear_pending (env : JEnv) : (ExceptionClear env).pending = none := rfl

@[simp] theorem ExceptionClear_trace (env : JEnv) : (ExceptionClear env).trace = env.trace := rfl

@[simp] theorem ExceptionClear_heap (env : JEnv) : (ExceptionClear env).heap = env.heap := rfl

@[simp] theorem ExceptionDescribe_trace (env : JEnv) :
    (ExceptionDescribe env).trace = env.trace := by
  unfold ExceptionDescribe; split <;> rfl

@[simp] theorem ExceptionDescribe_heap (env : JEnv) :
    (ExceptionDescribe env).heap = env.heap := by
  unfold ExceptionDescribe; split <;> rfl

theorem findClass_found (vm : JVM) (name : String) (env : JEnv) (h : name ∈ vm.classes) :
    findClass vm name env = (some name, jniEnv env) := by
  simp [findClass, FindClass, h]

theorem findClass_missing (vm : JVM) (name : String) (env : JEnv) (h : name ∉ vm.classes) :
    findClass vm name env
      = (none, printf ("!! sparkle: Couldn't find Java class " ++ name ++ "\n")
                 { jniEnv env with pending := some "java/lang/NoClassDefFoundError" }) := by
  simp [findClass, FindClass, h]

theorem findStaticMethod_found (vm : JVM) (c name sig : String) (env : JEnv)
    (h : (c, name, sig) ∈ vm.staticMethods) :
    findStaticMethod vm (some c) name sig env
      = .ok (some ⟨c, name, sig, true⟩, jniEnv env) := by
  simp [findStaticMethod, GetStaticMethodID, h, bind, Except.bind, pure, Except.pure]

theorem findStaticMethod_missing (vm : JVM) (c name sig : String) (env : JEnv)
    (h : (c, name, sig) ∉ vm.staticMethods) :
    findStaticMethod vm (some c) name sig env
      = .ok (none, printf ("!! sparkle: Couldn't find static method " ++ name
                             ++ " with signature " ++ sig)
                     { jniEnv env with pending := some "java/lang/NoSuchMethodError" }) := by
  simp [findStaticMethod, GetStaticMethodID, h, bind, Except.bind, pure, Except.pure]

theorem findStaticMethod_null (vm : JVM) (name sig : String) (env : JEnv) :
    findStaticMethod vm none name sig env
      = .error ⟨.GetStaticMethodID none name sig, jniEnv env⟩ := by
  simp [findStaticMethod, GetStaticMethodID, bind, Except.bind]

theorem findMethod_found (vm : JVM) (c name sig : String) (env : JEnv)
    (h : (c, name, sig) ∈ vm.methods) :
    findMethod vm (some c) name sig env = .ok (some ⟨c, name, sig, false⟩, jniEnv env) := by
  simp [findMethod, GetMethodID, h, bind, Except.bind, pure, Except.pure]

theorem findMethod_missing (vm : JVM) (c name sig : String) (env : JEnv)
    (h : (c, name, sig) ∉ vm.methods) :
    findMethod vm (some c) name sig env
      = .ok (none, printf ("!! sparkle: Couldn't find method " ++ name
                             ++ " with signature " ++ sig)
                     { jniEnv env with pending := some "java/lang/NoSuchMethodError" }) := by
  simp [findMethod, GetMethodID, h, bind, Except.bind, pure, Except.pure]

theorem findMethod_null (vm : JVM) (name sig : String) (env : JEnv) :
    findMethod vm none name sig env = .error ⟨.GetMethodID none name sig, jniEnv env⟩ := by
  simp [findMethod, GetMethodID, bind, Except.bind]

/-- The array constructors never fault when the host buffer holds as many
elements as the narrowed size asks for; they leave the invocation log alone. -/
theorem newIntArray_failed (vm : JVM) (size : Nat) (data : List Int) (env : JEnv)
    (h : toJsize size < 0 ∨ vm.allocOk .int (toJsize size).toNat env.heap = false) :
    ∃ env1, newIntArray vm size data env = .ok (none, env1) ∧ env1.trace = env.trace := by
  by_cases hneg : toJsize size < 0
  · exact ⟨printf ("!! sparkle: jintArray of size " ++ fmtZd size ++ " cannot be allocated")
        { jniEnv env with pending := some "java/lang/NegativeArraySizeException" },
      by simp only [newIntArray, NewIntArray, NewPrimArray, hneg, if_true, Option.isNone_none]; rfl,
      by simp⟩
  · have ha : vm.allocOk .int (toJsize size).toNat env.heap = false := by
      rcases h with h | h
      · exact absurd h hneg
      · exact h
    exact ⟨printf ("!! sparkle: jintArray of size " ++ fmtZd size ++ " cannot be allocated")
        { jniEnv env with pending := some "java/lang/OutOfMemoryError" },
      by simp only [newIntArray, NewIntArray, NewPrimArray, hneg, if_false, jniEnv_heap, ha,
           Option.isNone_none, if_true, Bool.false_eq_true]; rfl,
      by simp⟩

theorem newIntArray_returns (vm : JVM) (size : Nat) (data : List Int) (env : JEnv)
    (hb : (toJsize size).toNat ≤ data.length) :
    ∃ a env1, newIntArray vm size data env = .ok (a, env1) ∧ env1.trace = env.trace := by
  by_cases h : toJsize size < 0 ∨ vm.allocOk .int (toJsize size).toNat env.heap = false
  · obtain ⟨env1, h1, h2⟩ := newIntArray_failed vm size data env h
    exact ⟨none, env1, h1, h2⟩
  · have hneg : ¬ toJsize size < 0 := fun hc => h (Or.inl hc)
    have ha : vm.allocOk .int (toJsize size).toNat env.heap = true := by
      cases hv : vm.allocOk .int (toJsize size).toNat env.heap
      · exact absurd (Or.inr hv) h
      · rfl
    have hn : toJsize size = (((toJsize size).toNat : Nat) : Int) := by omega
    exact ⟨_, _, newIntArray_ok vm size data env _ hn ha hb, by simp⟩

theorem newByteArray_failed (vm : JVM) (size : Nat) (data : List Int) (env : JEnv)
    (h : toJsize size < 0 ∨ vm.allocOk .byte (toJsize size).toNat env.heap = false) :
    ∃ env1, newByteArray vm size data env = .ok (none, env1) ∧ env1.trace = env.trace := by
  by_cases hneg : toJsize size < 0
  · exact ⟨printf ("!! sparkle: jbyteArray of size " ++ fmtZd size ++ " cannot be allocated")
        { jniEnv env with pending := some "java/lang/NegativeArraySizeException" },
      by simp only [newByteArray, NewByteArray, NewPrimArray, hneg, if_true,
           Option.isNone_none]; rfl,
      by simp⟩
  · have ha : vm.allocOk .byte (toJsize size).toNat env.heap = false := by
      rcases h with h | h
      · exact absurd h hneg
      · exact h
    exact ⟨printf ("!! sparkle: jbyteArray of size " ++ fmtZd size ++ " cannot be allocated")
        { jniEnv env with pending := some "java/lang/OutOfMemoryError" },
      by simp only [newByteArray, NewByteArray, NewPrimArray, hneg, if_false, jniEnv_heap, ha,
           Option.isNone_none, if_true, Bool.false_eq_true]; rfl,
      by simp⟩

theorem newByteArray_returns (vm : JVM) (size : Nat) (data : List Int) (env : JEnv)
    (hb : (toJsize size).toNat ≤ data.length) :
    ∃ a env1, newByteArray vm size data env = .ok (a, env1) ∧ env1.trace = env.trace := by
  by_cases h : toJsize size < 0 ∨ vm.allocOk .byte (toJsize size).toNat env.heap = false
  · obtain ⟨env1, h1, h2⟩ := newByteArray_failed vm size data env h
    exact ⟨none, env1, h1, h2⟩
  · have hneg : ¬ toJsize size < 0 := fun hc => h (Or.inl hc)
    have ha : vm.allocOk .byte (toJsize size).toNat env.heap = true := by
      cases hv : vm.allocOk .byte (toJsize size).toNat env.heap
      · exact absurd (Or.inr hv) h
      · rfl
    have hn : toJsize size = (((toJsize size).toNat : Nat) : Int) := by omega
    exact ⟨_, _, newByteArray_ok vm size data env _ hn ha hb, by simp⟩

/-! ## What each bridge function does, case by case -/

/-- The two ways a managed invocation ends. -/
theorem runInvocation_cases (vm : JVM) (call : JCall) (m : MethodID) (recv : JRef)
    (args : List JRef) (env : JEnv) :
    (∃ r heap1, vm.invoke m recv args env.heap = (.ret r, heap1)
      ∧ runInvocation vm call m recv args env
        = (r, { env with heap := heap1, trace := env.trace ++ [⟨call, env.heap, .ret r⟩] }))
    ∨ (∃ e heap1, vm.invoke m recv args env.heap = (.throw e, heap1)
      ∧ runInvocation vm call m recv args env
        = (none, { env with heap := heap1, pending := some e,
                            trace := env.trace ++ [⟨call, env.heap, .throw e⟩] })) := by
  unfold runInvocation
  rcases vm.invoke m recv args env.heap with ⟨o, heap1⟩
  cases o with
  | ret r => exact Or.inl ⟨r, heap1, rfl, rfl⟩
  | throw e => exact Or.inr ⟨e, heap1, rfl, rfl⟩

/-- What `parallelize` does once the helper is resolved and `newIntArray` has
returned `a` (possibly null) in state `env1`: it makes exactly one managed
invocation, returns its result, and clears the exception when it threw. -/
theorem parallelize_after_alloc (vm : JVM) (ctx : JRef) (data : List Int) (n : Nat)
    (env env1 : JEnv) (a : JRef)
    (hcls : "Helper" ∈ vm.classes)
    (hpar : ("Helper", "parallelize", sigParallelize) ∈ vm.staticMethods)
    (hnew : newIntArray vm n data (jniEnv env) = .ok (a, env1)) :
    ∃ r env2 o, parallelize vm ctx data n env = .ok (r, env2)
      ∧ env2.trace = env1.trace ++
          [⟨.CallStaticObjectMethodA (some "Helper") (some midParallelize) [ctx, a],
            env1.heap, o⟩]
      ∧ vm.invoke midParallelize none [ctx, a] env1.heap = (o, env2.heap)
      ∧ (∀ e, o = .throw e → r = none ∧ env2.pending = none)
      ∧ (∀ x, o = .ret x → r = x) := by
  simp only [parallelize, findClass_found vm _ _ hcls, findStaticMethod_found vm _ _ _ _ hpar,
    jniEnv_idem, hnew, bind, Except.bind, callStaticObjectMethod, CallStaticObjectMethodA]
  rcases runInvocation_cases vm (.CallStaticObjectMethodA (some "Helper")
      (some ⟨"Helper", "parallelize", sigParallelize, true⟩) [ctx, a])
      ⟨"Helper", "parallelize", sigParallelize, true⟩ none [ctx, a] (jniEnv env1)
    with ⟨r, heap1, hi, hr⟩ | ⟨e, heap1, hi, hr⟩
  · simp only [jniEnv_heap] at hi
    simp only [hr]
    cases r with
    | some r =>
      exact ⟨_, _, .ret (some r), rfl, by simp [midParallelize],
        by simpa [midParallelize] using hi, by simp, by simp⟩
    | none =>
      cases hp : env1.pending with
      | none =>
        simp only [Option.isNone_none, if_true, ExceptionOccurred, printf_pending,
          jniEnv_pending, hp, Option.isSome_none, Bool.false_eq_true, if_false, pure,
          Except.pure]
        exact ⟨none, _, .ret none, rfl, by simp [midParallelize],
          by simpa [midParallelize] using hi, by simp, by simp⟩
      | some p =>
        simp only [Option.isNone_none, if_true, ExceptionOccurred, printf_pending,
          jniEnv_pending, hp, Option.isSome_some, pure, Except.pure]
        exact ⟨none, _, .ret none, rfl, by simp [midParallelize],
          by simpa [midParallelize] using hi, by simp, by simp⟩
  · simp only [jniEnv_heap] at hi
    simp only [hr, Option.isNone_none, if_true, ExceptionOccurred, printf_pending,
      Option.isSome_some, pure, Except.pure]
    exact ⟨none, _, .throw e, rfl, by simp [midParallelize],
      by simpa [midParallelize] using hi, by simp, by simp⟩

/-- What `rddmap` does once `newByteArray` has returned `a` (possibly null) in
state `env1` and the helper is resolved. -/
theorem rddmap_after_alloc (vm : JVM) (rdd : JRef) (clos : List Int) (closSize : Int)
    (env env1 : JEnv) (a : JRef)
    (hcls : "Helper" ∈ vm.classes)
    (hmap : ("Helper", "map", sigMap) ∈ vm.staticMethods)
    (hnew : newByteArray vm (toSizeT closSize) clos (jniEnv env) = .ok (a, env1)) :
    ∃ r env2 o, rddmap vm rdd clos closSize env = .ok (r, env2)
      ∧ env2.trace = env1.trace ++
          [⟨.CallStaticObjectMethodA (some "Helper") (some midMap) [rdd, a], env1.heap, o⟩]
      ∧ vm.invoke midMap none [rdd, a] env1.heap = (o, env2.heap)
      ∧ (∀ e, o = .throw e → r = none ∧ env2.pending = none)
      ∧ (∀ x, o = .ret x → r = x) := by
  simp only [rddmap, findClass_found vm _ _ hcls, findStaticMethod_found vm _ _ _ _ hmap,
    jniEnv_idem, hnew, bind, Except.bind, callStaticObjectMethod, CallStaticObjectMethodA]
  rcases runInvocation_cases vm (.CallStaticObjectMethodA (some "Helper")
      (some ⟨"Helper", "map", sigMap, true⟩) [rdd, a])
      ⟨"Helper", "map", sigMap, true⟩ none [rdd, a] (jniEnv env1)
    with ⟨r, heap1, hi, hr⟩ | ⟨e, heap1, hi, hr⟩
  · simp only [jniEnv_heap] at hi
    simp only [hr]
    cases r with
    | some r =>
      exact ⟨_, _, .ret (some r), rfl, by simp [midMap], by simpa [midMap] using hi,
        by simp, by simp⟩
    | none =>
      cases hp : env1.pending with
      | none =>
        simp only [Option.isNone_none, if_true, ExceptionOccurred, printf_pending,
          jniEnv_pending, hp, Option.isSome_none, Bool.false_eq_true, if_false, pure,
          Except.pure]
        exact ⟨none, _, .ret none, rfl, by simp [midMap],
          by simpa [midMap] using hi, by simp, by simp⟩
      | some p =>
        simp only [Option.isNone_none, if_true, ExceptionOccurred, printf_pending,
          jniEnv_pending, hp, Option.isSome_some, pure, Except.pure]
        exact ⟨none, _, .ret none, rfl, by simp [midMap],
          by simpa [midMap] using hi, by simp, by simp⟩
  · simp only [jniEnv_heap] at hi
    simp only [hr, Option.isNone_none, if_true, ExceptionOccurred, printf_pending,
      Option.isSome_some, pure, Except.pure]
    exact ⟨none, _, .throw e, rfl, by simp [midMap],
      by simpa [midMap] using hi, by simp, by simp⟩

/-- Behaviour of `collect` when the helper call throws: the exception is described and
cleared and the output cells are returned as they were. -/
theorem collect_throw (vm : JVM) (rdd : JRef) (cells : OutCells) (env : JEnv)
    (e : String) (heap2 : List JObject)
    (hcls : "Helper" ∈ vm.classes)
    (hcol : ("Helper", "collect", sigCollect) ∈ vm.staticMethods)
    (hinv : vm.invoke midCollect none [rdd] env.heap = (.throw e, heap2)) :
    collect vm rdd cells env
      = .ok (cells, ExceptionClear (ExceptionDescribe
          (printf "!! sparkle: collect() returned NULL\n"
            { afterCollectCall rdd env heap2 (.throw e) with pending := some e }))) := by
  simp only [midCollect] at hinv
  simp [collect, findClass_found vm _ _ hcls, findStaticMethod_found vm _ _ _ _ hcol,
    bind, Except.bind, callStaticObjectMethod, CallStaticObjectMethodA, runInvocation, hinv,
    ExceptionOccurred, afterCollectCall, midCollect, pure, Except.pure]

/-- Behaviour of `collect` when the helper call returns a non-null reference: the array is
read back. -/
theorem collect_some (vm : JVM) (rdd : JRef) (cells : OutCells) (env : JEnv)
    (a : Nat) (heap2 : List JObject)
    (hcls : "Helper" ∈ vm.classes)
    (hcol : ("Helper", "collect", sigCollect) ∈ vm.staticMethods)
    (hinv : vm.invoke midCollect none [rdd] env.heap = (.ret (some a), heap2)) :
    collect vm rdd cells env
      = collectRead (some a) (afterCollectCall rdd env heap2 (.ret (some a))) := by
  simp only [midCollect] at hinv
  simp [collect, findClass_found vm _ _ hcls, findStaticMethod_found vm _ _ _ _ hcol,
    bind, Except.bind, callStaticObjectMethod, CallStaticObjectMethodA, runInvocation, hinv,
    afterCollectCall, midCollect]

/-- Behaviour of `collect` when the helper call returns null and nothing is pending: the
code goes on to `GetArrayLength` on the null array. -/
theorem collect_null (vm : JVM) (rdd : JRef) (cells : OutCells) (env : JEnv)
    (heap2 : List JObject)
    (hcls : "Helper" ∈ vm.classes)
    (hcol : ("Helper", "collect", sigCollect) ∈ vm.staticMethods)
    (hinv : vm.invoke midCollect none [rdd] env.heap = (.ret none, heap2))
    (hpend : env.pending = none) :
    collect vm rdd cells env
      = .error ⟨.GetArrayLength none,
          printf "!! sparkle: collect() returned NULL\n"
            (afterCollectCall rdd env heap2 (.ret none))⟩ := by
  simp only [midCollect] at hinv
  simp [collect, findClass_found vm _ _ hcls, findStaticMethod_found vm _ _ _ _ hcol,
    bind, Except.bind, callStaticObjectMethod, CallStaticObjectMethodA, runInvocation, hinv,
    ExceptionOccurred, afterCollectCall, midCollect, hpend, collectRead, GetArrayLength]

theorem localVM_parallelize : ParallelizePreservesOrder localVM := by
  intro heap ctx a xs h
  refine ⟨heap.length, heap ++ [.object clsRDD xs], ?_, by simp⟩
  simp [localVM, localInvoke, midParallelize, h]

theorem localVM_collect : CollectPreservesOrder localVM := by
  intro heap r xs h
  refine ⟨heap.length, heap ++ [.array .int xs], ?_, by simp⟩
  simp [localVM, localInvoke, midCollect, h]

/-- Behaviour of `parallelize` then `collect` with an order-preserving helper: what comes
back is the part of the host buffer that was copied into the managed array,
that is its first `n` elements, `n` the size after narrowing to `jsize`. -/
theorem collect_parallelize_general (vm : JVM) (ctx : JRef) (data : List Int) (size n : Nat)
    (cells : OutCells) (env : JEnv)
    (hcls : "Helper" ∈ vm.classes)
    (hpar : ("Helper", "parallelize", sigParallelize) ∈ vm.staticMethods)
    (hcol : ("Helper", "collect", sigCollect) ∈ vm.staticMethods)
    (hn : toJsize size = (n : Int)) (ha : vm.allocOk .int n env.heap = true)
    (hb : n ≤ data.length)
    (hP : ParallelizePreservesOrder vm) (hC : CollectPreservesOrder vm) :
    ∃ r env1 env2, parallelize vm ctx data size env = .ok (some r, env1)
      ∧ collect vm (some r) cells env1
          = .ok ({ buf := data.take n, len := (data.take n).length }, env2) := by
  have ha1 : vm.allocOk .int n (jniEnv env).heap = true := by simpa using ha
  have hnew := newIntArray_ok vm size data (jniEnv env) n hn ha1 hb
  simp only [jniEnv_heap, jniEnv_idem] at hnew
  obtain ⟨r, env2, o, hpz, -, hinv, -, hret⟩ :=
    parallelize_after_alloc vm ctx data size env _ _ hcls hpar hnew
  obtain ⟨r1, heap1, hinv1, hr1⟩ := hP (env.heap ++ [.array .int (data.take n)]) ctx
    env.heap.length (data.take n) (by simp)
  have hinv2 : (o, env2.heap) = (Outcome.ret (some r1), heap1) := by
    rw [← hinv, ← hinv1]
  have ho : o = .ret (some r1) := (Prod.mk.inj hinv2).1
  have hh : env2.heap = heap1 := (Prod.mk.inj hinv2).2
  have hr : r = some r1 := hret _ ho
  subst hr
  obtain ⟨a2, heap2, hinv3, ha2⟩ := hC env2.heap r1 (data.take n) (by rw [hh]; exact hr1)
  refine ⟨r1, env2, afterCollectCall (some r1) env2 heap2 (.ret (some a2)), hpz, ?_⟩
  rw [collect_some vm (some r1) cells env2 a2 heap2 hcls hcol hinv3]
  exact collectRead_intArray a2 (data.take n) _ (by simpa [afterCollectCall] using ha2)

/-- Behaviour of `newObject` on a null class: the null goes to `GetMethodID`. -/
theorem newObject_null_class (vm : JVM) (sig : String) (args : List JRef) (env : JEnv) :
    newObject vm none sig args env = .error ⟨.GetMethodID none "<init>" sig, jniEnv env⟩ := by
  simp [newObject, findMethod_null, bind, Except.bind]

/-- Behaviour of `newObject` when the constructor is not found: the miss is
printed and the null method id goes to `NewObjectA`. -/
theorem newObject_null_ctor (vm : JVM) (c sig : String) (args : List JRef) (env : JEnv)
    (h : (c, "<init>", sig) ∉ vm.methods) :
    ∃ env1, newObject vm (some c) sig args env
        = .error ⟨.NewObjectA (some c) none args, env1⟩
      ∧ msgNoMethod "<init>" sig ∈ env1.out := by
  refine ⟨printf ("!! sparkle: Couldn't find method " ++ "<init>" ++ " with signature " ++ sig)
    { jniEnv (jniEnv env) with pending := some "java/lang/NoSuchMethodError" }, ?_, ?_⟩
  · simp only [newObject, findMethod_missing vm _ _ _ _ h, NewObjectA, bind, Except.bind]
  · simp [printf, msgNoMethod]

/-- Behaviour of `newObject` when the constructor is found: it returns, and
what was printed before is still there. -/
theorem newObject_returns (vm : JVM) (c sig : String) (args : List JRef) (env : JEnv)
    (h : (c, "<init>", sig) ∈ vm.methods) :
    ∃ obj env1, newObject vm (some c) sig args env = .ok (obj, env1)
      ∧ ∀ m, m ∈ env.out → m ∈ env1.out := by
  simp only [newObject, findMethod_found vm _ _ _ _ h, NewObjectA, bind, Except.bind]
  rcases runInvocation_cases vm (.NewObjectA (some c) (some ⟨c, "<init>", sig, false⟩) args)
      ⟨c, "<init>", sig, false⟩ none args (jniEnv (jniEnv env))
    with ⟨r, heap1, -, hr⟩ | ⟨e, heap1, -, hr⟩
  · simp only [hr]
    cases r with
    | some r => exact ⟨_, _, rfl, by simp⟩
    | none => exact ⟨_, _, rfl, by simp [printf]; intro m hm; exact Or.inl hm⟩
  · simp only [hr]
    exact ⟨_, _, rfl, by simp [printf]; intro m hm; exact Or.inl hm⟩

/-- The array constructor keeps what was printed before. -/
theorem newIntArray_keeps_out (vm : JVM) (size : Nat) (data : List Int) (env : JEnv)
    (hb : (toJsize size).toNat ≤ data.length) :
    ∃ a env1, newIntArray vm size data env = .ok (a, env1)
      ∧ ∀ m, m ∈ env.out → m ∈ env1.out := by
  by_cases hneg : toJsize size < 0
  · exact ⟨none, printf ("!! sparkle: jintArray of size " ++ fmtZd size
        ++ " cannot be allocated")
        { jniEnv env with pending := some "java/lang/NegativeArraySizeException" },
      by simp only [newIntArray, NewIntArray, NewPrimArray, hneg, if_true,
           Option.isNone_none]; rfl,
      by simp [printf]; intro m hm; exact Or.inl hm⟩
  · by_cases ha : vm.allocOk .int (toJsize size).toNat env.heap = true
    · have hn : toJsize size = (((toJsize size).toNat : Nat) : Int) := by omega
      exact ⟨_, _, newIntArray_ok vm size data env _ hn ha hb, by simp⟩
    · exact ⟨none, printf ("!! sparkle: jintArray of size " ++ fmtZd size
          ++ " cannot be allocated")
          { jniEnv env with pending := some "java/lang/OutOfMemoryError" },
        by simp only [newIntArray, NewIntArray, NewPrimArray, hneg, if_false, jniEnv_heap, ha,
             Option.isNone_none, if_true, Bool.false_eq_true]; rfl,
        by simp [printf]; intro m hm; exact Or.inl hm⟩

/-! ## Claims -/

/-- C1 (amended): for every int32 sequence `xs` of at most `2^31 - 1` elements
(the empty one included) and every context `ctx`, when class and method
resolution and the array allocation succeed and the helper's `parallelize`
and `collect` are order-preserving, `collect(parallelize(ctx, xs, |xs|), &buf,
&len)` sets `len = |xs|` and `buf` to a buffer whose first `len` elements are
`xs`; for `xs = []` this is `len = 0`, not a failure. -/
theorem collect_parallelize_roundtrip (vm : JVM) (ctx : JRef) (xs : List Int)
    (cells : OutCells) (env : JEnv)
    (hlen : xs.length < 2 ^ 31)
    (hcls : "Helper" ∈ vm.classes)
    (hpar : ("Helper", "parallelize", sigParallelize) ∈ vm.staticMethods)
    (hcol : ("Helper", "collect", sigCollect) ∈ vm.staticMethods)
    (halloc : vm.allocOk .int xs.length env.heap = true)
    (hP : ParallelizePreservesOrder vm) (hC : CollectPreservesOrder vm) :
    ∃ r env1 out env2, parallelize vm ctx xs xs.length env = .ok (some r, env1)
      ∧ collect vm (some r) cells env1 = .ok (out, env2)
      ∧ out.len = xs.length ∧ out.buf.take out.len = xs := by
  obtain ⟨r, env1, env2, h1, h2⟩ :=
    collect_parallelize_general vm ctx xs xs.length xs.length cells env hcls hpar hcol
      (toJsize_of_lt hlen) halloc (le_refl _) hP hC
  rw [List.take_length] at h2
  exact ⟨r, env1, _, env2, h1, h2, rfl, List.take_length xs⟩

/-- Witness for C1 (amended): the sequence `[1, 2, 3]` on the
local runtime. -/
theorem collect_parallelize_roundtrip_witness :
    ∃ r env1 out env2,
      parallelize localVM none [1, 2, 3] ([1, 2, 3] : List Int).length env0 = .ok (some r, env1)
      ∧ collect localVM (some r) ⟨[], 0⟩ env1 = .ok (out, env2)
      ∧ out.len = ([1, 2, 3] : List Int).length ∧ out.buf.take out.len = [1, 2, 3] :=
  collect_parallelize_roundtrip localVM none [1, 2, 3] ⟨[], 0⟩ env0 (by decide)
    (by decide) (by decide) (by decide) rfl localVM_parallelize localVM_collect

/-- C1 as stated fails: with an order-preserving helper and every resolution
and allocation succeeding, a sequence of `2^32 + 1` elements comes back from
`collect(parallelize(..))` with `len = 1`, because its length is narrowed to
the 32-bit `jsize` value 1. -/
theorem collect_parallelize_narrows :
    ParallelizePreservesOrder localVM ∧ CollectPreservesOrder localVM
    ∧ ∃ r env1 out env2,
      parallelize localVM none (List.replicate (2 ^ 32 + 1) (0 : Int))
          (List.replicate (2 ^ 32 + 1) (0 : Int)).length env0 = .ok (some r, env1)
      ∧ collect localVM (some r) ⟨[], 0⟩ env1 = .ok (out, env2)
      ∧ out.len = 1 ∧ out.len ≠ (List.replicate (2 ^ 32 + 1) (0 : Int)).length := by
  have hj : toJsize (List.replicate (2 ^ 32 + 1) (0 : Int)).length = ((1 : Nat) : Int) := by
    rw [List.length_replicate]; decide
  have hb : 1 ≤ (List.replicate (2 ^ 32 + 1) (0 : Int)).length := by
    rw [List.length_replicate]; decide
  obtain ⟨r, env1, env2, h1, h2⟩ :=
    collect_parallelize_general localVM none (List.replicate (2 ^ 32 + 1) (0 : Int)) _ 1
      ⟨[], 0⟩ env0 (by decide) (by decide) (by decide) hj rfl hb localVM_parallelize
      localVM_collect
  have hl : ((List.replicate (2 ^ 32 + 1) (0 : Int)).take 1).length = 1 := by
    rw [List.length_take, List.length_replicate]; decide
  refine ⟨localVM_parallelize, localVM_collect, r, env1, _, env2, h1, h2, hl, ?_⟩
  show ((List.replicate (2 ^ 32 + 1) (0 : Int)).take 1).length ≠ _
  rw [hl, List.length_replicate]; decide

/-- C2: for `parallelize` and for `rddmap`, with the helper class and the
method of that operation resolved (and the host buffer holding the elements
the operation copies), the operation returns after exactly one managed
invocation, the helper's static call, made on the heap `h` with outcome `o`.
Whenever that call threw, the operation returns null and an exception check
on the environment it returns finds nothing pending. -/
theorem helper_exception_cleared (vm : JVM) (ctx rdd : JRef) (data clos : List Int)
    (n : Nat) (closSize : Int) (env : JEnv) (hcls : "Helper" ∈ vm.classes) :
    (("Helper", "parallelize", sigParallelize) ∈ vm.staticMethods →
      (toJsize n).toNat ≤ data.length →
      ∃ r env1 a h o, parallelize vm ctx data n env = .ok (r, env1)
        ∧ env1.trace = env.trace ++
            [⟨.CallStaticObjectMethodA (some "Helper") (some midParallelize) [ctx, a], h, o⟩]
        ∧ vm.invoke midParallelize none [ctx, a] h = (o, env1.heap)
        ∧ ∀ e, o = .throw e → r = none ∧ ExceptionOccurred env1 = none)
    ∧ (("Helper", "map", sigMap) ∈ vm.staticMethods →
      (toJsize (toSizeT closSize)).toNat ≤ clos.length →
      ∃ r env1 a h o, rddmap vm rdd clos closSize env = .ok (r, env1)
        ∧ env1.trace = env.trace ++
            [⟨.CallStaticObjectMethodA (some "Helper") (some midMap) [rdd, a], h, o⟩]
        ∧ vm.invoke midMap none [rdd, a] h = (o, env1.heap)
        ∧ ∀ e, o = .throw e → r = none ∧ ExceptionOccurred env1 = none) := by
  constructor
  · intro hpar hdata
    obtain ⟨a, env1, hnew, htr⟩ := newIntArray_returns vm n data (jniEnv env) hdata
    obtain ⟨r, env2, o, hp, ht, hinv, hthrow, -⟩ :=
      parallelize_after_alloc vm ctx data n env env1 a hcls hpar hnew
    exact ⟨r, env2, a, env1.heap, o, hp, by simpa [htr] using ht, hinv, hthrow⟩
  · intro hmap hclos
    obtain ⟨a, env1, hnew, htr⟩ :=
      newByteArray_returns vm (toSizeT closSize) clos (jniEnv env) hclos
    obtain ⟨r, env2, o, hp, ht, hinv, hthrow, -⟩ :=
      rddmap_after_alloc vm rdd clos closSize env env1 a hcls hmap hnew
    exact ⟨r, env2, a, env1.heap, o, hp, by simpa [htr] using ht, hinv, hthrow⟩

/-- Witness for C2: on a runtime whose helper always throws, entered with an
exception already pending, `parallelize` and `rddmap` return null and an
exception check on the environment they return finds nothing. -/
theorem helper_exception_cleared_witness :
    ExceptionOccurred envPending ≠ none
    ∧ (∃ env1, parallelize throwingVM (some 0) [1, 2, 3] 3 envPending = .ok (none, env1)
        ∧ ExceptionOccurred env1 = none)
    ∧ (∃ env1, rddmap throwingVM (some 0) [9, 8] 2 envPending = .ok (none, env1)
        ∧ ExceptionOccurred env1 = none) := by
  have h := helper_exception_cleared throwingVM (some 0) (some 0) [1, 2, 3] [9, 8] 3 2
    envPending (by decide)
  refine ⟨by decide, ?_, ?_⟩
  · obtain ⟨r, env1, a, hp, o, hret, -, hinv, hthrow⟩ := h.1 (by decide) (by decide)
    have ho : o = .throw "org/apache/spark/SparkException" := (congrArg Prod.fst hinv).symm
    obtain ⟨hr, hx⟩ := hthrow _ ho
    subst hr
    exact ⟨env1, hret, hx⟩
  · obtain ⟨r, env1, a, hp, o, hret, -, hinv, hthrow⟩ := h.2 (by decide) (by decide)
    have ho : o = .throw "org/apache/spark/SparkException" := (congrArg Prod.fst hinv).symm
    obtain ⟨hr, hx⟩ := hthrow _ ho
    subst hr
    exact ⟨env1, hret, hx⟩

/-- C3, evaluated where it fails: the helper's `collect` throws while the
caller's cells hold a three-element buffer and the length 3.  `collect`
clears the exception and returns, and the cells still hold that buffer and
the length 3: the length output is not 0. -/
theorem collect_exception_leaves_cells :
    ∃ env1, collect throwingVM (some 0) ⟨[7, 8, 9], 3⟩ envRDD = .ok (⟨[7, 8, 9], 3⟩, env1)
      ∧ env1.pending = none
      ∧ (⟨[7, 8, 9], 3⟩ : OutCells).len ≠ 0 :=
  ⟨_, collect_throw throwingVM (some 0) ⟨[7, 8, 9], 3⟩ envRDD
        "org/apache/spark/SparkException" envRDD.heap (by decide) (by decide) rfl,
    rfl, by decide⟩

/-- C4, evaluated where it fails: looking up a class the runtime does not have
returns null and leaves `NoClassDefFoundError` pending, although nothing was
pending before; the exception is still pending after a following lookup of
the existing class `Helper`. -/
theorem findClass_leaves_exception_pending :
    env0.pending = none
    ∧ (findClass localVM "org/apache/spark/SparkConfig" env0).1 = none
    ∧ (findClass localVM "org/apache/spark/SparkConfig" env0).2.pending
        = some "java/lang/NoClassDefFoundError"
    ∧ (findClass localVM "Helper"
        (findClass localVM "org/apache/spark/SparkConfig" env0).2).2.pending
        = some "java/lang/NoClassDefFoundError" := by
  have h1 := findClass_missing localVM "org/apache/spark/SparkConfig" env0 (by decide)
  refine ⟨rfl, by rw [h1], by rw [h1]; rfl, ?_⟩
  rw [findClass_found localVM "Helper" _ (by decide), h1]
  simp

/-- C5 (amended): in every operation that resolves a class or method before
invoking it, a NotFound (null) result of `findClass`, `findMethod` or
`findStaticMethod` is reported on the diagnostic sink and nothing more.  The
operation does not abort and does not return null: it passes the null
reference to the next runtime call that takes it, where the run ends with
the resolver's line on the sink.  A null class reaches `GetMethodID`
(`newSparkContext`, `newSparkConf`) or `GetStaticMethodID` (`parallelize`,
`collect`, `rddmap`); a null constructor id reaches `NewObjectA` (`newObject`,
`newSparkContext`, `newSparkConf`); a null `setAppName` id reaches
`CallObjectMethodA` (`newSparkConf`); a null static method id reaches
`CallStaticObjectMethodA` (`parallelize`, `collect`, `rddmap`).  Where an
array is built first, the host buffer holds the elements that are copied. -/
theorem notFound_is_passed_on (vm : JVM) (env : JEnv) (ctx rdd conf : JRef)
    (data clos : List Int) (n : Nat) (closSize : Int) (cells : OutCells) (appname : String) :
    (∀ c sig args, (c, "<init>", sig) ∉ vm.methods →
      ∃ env1, newObject vm (some c) sig args env
          = .error ⟨.NewObjectA (some c) none args, env1⟩
        ∧ msgNoMethod "<init>" sig ∈ env1.out)
    ∧ ("org/apache/spark/api/java/JavaSparkContext" ∉ vm.classes →
      ∃ env1, newSparkContext vm conf env
          = .error ⟨.GetMethodID none "<init>" "(Lorg/apache/spark/SparkConf;)V", env1⟩
        ∧ msgNoClass "org/apache/spark/api/java/JavaSparkContext" ∈ env1.out)
    ∧ ("org/apache/spark/api/java/JavaSparkContext" ∈ vm.classes →
        ("org/apache/spark/api/java/JavaSparkContext", "<init>",
          "(Lorg/apache/spark/SparkConf;)V") ∉ vm.methods →
      ∃ env1, newSparkContext vm conf env
          = .error ⟨.NewObjectA (some "org/apache/spark/api/java/JavaSparkContext") none [conf],
              env1⟩
        ∧ msgNoMethod "<init>" "(Lorg/apache/spark/SparkConf;)V" ∈ env1.out)
    ∧ ("org/apache/spark/SparkConf" ∉ vm.classes →
      ∃ env1, newSparkConf vm appname env
          = .error ⟨.GetMethodID none "setAppName" sigSetAppName, env1⟩
        ∧ msgNoClass "org/apache/spark/SparkConf" ∈ env1.out)
    ∧ ("org/apache/spark/SparkConf" ∈ vm.classes →
        ("org/apache/spark/SparkConf", "<init>", "()V") ∉ vm.methods →
      ∃ env1, newSparkConf vm appname env
          = .error ⟨.NewObjectA (some "org/apache/spark/SparkConf") none [], env1⟩
        ∧ msgNoMethod "<init>" "()V" ∈ env1.out)
    ∧ ("org/apache/spark/SparkConf" ∈ vm.classes →
        ("org/apache/spark/SparkConf", "<init>", "()V") ∈ vm.methods →
        ("org/apache/spark/SparkConf", "setAppName", sigSetAppName) ∉ vm.methods →
      ∃ obj s env1, newSparkConf vm appname env
          = .error ⟨.CallObjectMethodA obj none [s], env1⟩
        ∧ msgNoMethod "setAppName" sigSetAppName ∈ env1.out)
    ∧ ("Helper" ∉ vm.classes →
      ∃ env1, parallelize vm ctx data n env
          = .error ⟨.GetStaticMethodID none "parallelize" sigParallelize, env1⟩
        ∧ msgNoClass "Helper" ∈ env1.out)
    ∧ ("Helper" ∈ vm.classes → ("Helper", "parallelize", sigParallelize) ∉ vm.staticMethods →
        (toJsize n).toNat ≤ data.length →
      ∃ a env1, parallelize vm ctx data n env
          = .error ⟨.CallStaticObjectMethodA (some "Helper") none [ctx, a], env1⟩
        ∧ msgNoStaticMethod "parallelize" sigParallelize ∈ env1.out)
    ∧ ("Helper" ∉ vm.classes →
      ∃ env1, collect vm rdd cells env
          = .error ⟨.GetStaticMethodID none "collect" sigCollect, env1⟩
        ∧ msgNoClass "Helper" ∈ env1.out)
    ∧ ("Helper" ∈ vm.classes → ("Helper", "collect", sigCollect) ∉ vm.staticMethods →
      ∃ env1, collect vm rdd cells env
          = .error ⟨.CallStaticObjectMethodA (some "Helper") none [rdd], env1⟩
        ∧ msgNoStaticMethod "collect" sigCollect ∈ env1.out)
    ∧ ("Helper" ∉ vm.classes → (toJsize (toSizeT closSize)).toNat ≤ clos.length →
      ∃ env1, rddmap vm rdd clos closSize env
          = .error ⟨.GetStaticMethodID none "map" sigMap, env1⟩
        ∧ msgNoClass "Helper" ∈ env1.out)
    ∧ ("Helper" ∈ vm.classes → ("Helper", "map", sigMap) ∉ vm.staticMethods →
        (toJsize (toSizeT closSize)).toNat ≤ clos.length →
      ∃ a env1, rddmap vm rdd clos closSize env
          = .error ⟨.CallStaticObjectMethodA (some "Helper") none [rdd, a], env1⟩
        ∧ msgNoStaticMethod "map" sigMap ∈ env1.out) := by
  refine ⟨fun c sig args h => newObject_null_ctor vm c sig args env h,
    ?_, ?_, ?_, ?_, ?_, ?_, ?_, ?_, ?_, ?_, ?_⟩
  · intro hc
    simp only [newSparkContext, findClass_missing vm _ _ hc, newObject_null_class]
    exact ⟨_, rfl, by simp [printf, msgNoClass]⟩
  · intro hc hm
    simp only [newSparkContext, findClass_found vm _ _ hc]
    exact newObject_null_ctor vm _ _ _ _ hm
  · intro hc
    simp only [newSparkConf, findClass_missing vm _ _ hc, findMethod_null, bind, Except.bind]
    exact ⟨_, rfl, by simp [printf, msgNoClass]⟩
  · intro hc hm
    by_cases hs : ("org/apache/spark/SparkConf", "setAppName", sigSetAppName) ∈ vm.methods
    · simp only [newSparkConf, findClass_found vm _ _ hc, findMethod_found vm _ _ _ _ hs,
        bind, Except.bind]
      obtain ⟨env1, h1, h2⟩ := newObject_null_ctor vm "org/apache/spark/SparkConf" "()V" []
        (jniEnv (jniEnv env)) hm
      exact ⟨env1, by rw [h1], h2⟩
    · simp only [newSparkConf, findClass_found vm _ _ hc, findMethod_missing vm _ _ _ _ hs,
        bind, Except.bind]
      generalize printf _ _ = E
      obtain ⟨env1, h1, h2⟩ := newObject_null_ctor vm "org/apache/spark/SparkConf" "()V" []
        E hm
      exact ⟨env1, by rw [h1], h2⟩
  · intro hc hm hs
    simp only [newSparkConf, findClass_found vm _ _ hc, findMethod_missing vm _ _ _ _ hs,
      bind, Except.bind]
    obtain ⟨obj, env1, h1, h2⟩ := newObject_returns vm "org/apache/spark/SparkConf" "()V" []
      (printf ("!! sparkle: Couldn't find method " ++ "setAppName" ++ " with signature "
                 ++ sigSetAppName)
        { jniEnv (jniEnv env) with pending := some "java/lang/NoSuchMethodError" }) hm
    rw [h1]
    refine ⟨obj, some env1.heap.length, jniEnv (newString appname env1).2, ?_, ?_⟩
    · simp only [newString, NewStringUTF, callObjectMethod, CallObjectMethodA, jniEnv_heap]
    · have := h2 (msgNoMethod "setAppName" sigSetAppName) (by simp [printf, msgNoMethod])
      simpa [newString, NewStringUTF] using this
  · intro hc
    simp only [parallelize, findClass_missing vm _ _ hc, findStaticMethod_null, bind,
      Except.bind]
    exact ⟨_, rfl, by simp [printf, msgNoClass]⟩
  · intro hc hm hdata
    simp only [parallelize, findClass_found vm _ _ hc, findStaticMethod_missing vm _ _ _ _ hm,
      bind, Except.bind]
    obtain ⟨a, env1, hnew, hout⟩ := newIntArray_keeps_out vm n data
      (printf ("!! sparkle: Couldn't find static method " ++ "parallelize"
                 ++ " with signature " ++ sigParallelize)
        { jniEnv (jniEnv (jniEnv env)) with pending := some "java/lang/NoSuchMethodError" })
      hdata
    rw [hnew]
    refine ⟨a, jniEnv env1, rfl, ?_⟩
    have := hout (msgNoStaticMethod "parallelize" sigParallelize)
      (by simp [printf, msgNoStaticMethod])
    simpa using this
  · intro hc
    simp only [collect, findClass_missing vm _ _ hc, findStaticMethod_null, bind, Except.bind]
    exact ⟨_, rfl, by simp [printf, msgNoClass]⟩
  · intro hc hm
    simp only [collect, findClass_found vm _ _ hc, findStaticMethod_missing vm _ _ _ _ hm,
      callStaticObjectMethod, CallStaticObjectMethodA, bind, Except.bind]
    exact ⟨_, rfl, by simp [printf, msgNoStaticMethod]⟩
  · intro hc hclos
    obtain ⟨a, env1, hnew, -⟩ :=
      newByteArray_returns vm (toSizeT closSize) clos (jniEnv env) hclos
    simp only [rddmap, hnew, findClass_missing vm _ _ hc, findStaticMethod_null, bind,
      Except.bind]
    exact ⟨_, rfl, by simp [printf, msgNoClass]⟩
  · intro hc hm hclos
    obtain ⟨a, env1, hnew, -⟩ :=
      newByteArray_returns vm (toSizeT closSize) clos (jniEnv env) hclos
    simp only [rddmap, hnew, findClass_found vm _ _ hc, findStaticMethod_missing vm _ _ _ _ hm,
      callStaticObjectMethod, CallStaticObjectMethodA, bind, Except.bind]
    exact ⟨a, _, rfl, by simp [printf, msgNoStaticMethod]⟩

/-- Witness for C5 (amended): a runtime with the classes and none of the
methods, a runtime with none of the classes, and a runtime whose
configuration class lacks `setAppName`. -/
theorem notFound_is_passed_on_witness :
    (∃ env1, newObject noMethodVM (some "org/apache/spark/SparkConf") "()V" [] env0
        = .error ⟨.NewObjectA (some "org/apache/spark/SparkConf") none [], env1⟩
      ∧ msgNoMethod "<init>" "()V" ∈ env1.out)
    ∧ (∃ env1, newSparkContext bareVM (some 0) envConf
        = .error ⟨.GetMethodID none "<init>" "(Lorg/apache/spark/SparkConf;)V", env1⟩
      ∧ msgNoClass "org/apache/spark/api/java/JavaSparkContext" ∈ env1.out)
    ∧ (∃ env1, newSparkContext noMethodVM (some 0) envConf
        = .error ⟨.NewObjectA (some "org/apache/spark/api/java/JavaSparkContext") none
            [some 0], env1⟩
      ∧ msgNoMethod "<init>" "(Lorg/apache/spark/SparkConf;)V" ∈ env1.out)
    ∧ (∃ env1, newSparkConf bareVM "app" envConf
        = .error ⟨.GetMethodID none "setAppName" sigSetAppName, env1⟩
      ∧ msgNoClass "org/apache/spark/SparkConf" ∈ env1.out)
    ∧ (∃ env1, newSparkConf noMethodVM "app" envConf
        = .error ⟨.NewObjectA (some "org/apache/spark/SparkConf") none [], env1⟩
      ∧ msgNoMethod "<init>" "()V" ∈ env1.out)
    ∧ (∃ obj s env1, newSparkConf noSetterVM "app" envConf
        = .error ⟨.CallObjectMethodA obj none [s], env1⟩
      ∧ msgNoMethod "setAppName" sigSetAppName ∈ env1.out)
    ∧ (∃ env1, parallelize bareVM (some 0) [1, 2] 2 envConf
        = .error ⟨.GetStaticMethodID none "parallelize" sigParallelize, env1⟩
      ∧ msgNoClass "Helper" ∈ env1.out)
    ∧ (∃ a env1, parallelize noMethodVM (some 0) [1, 2] 2 envConf
        = .error ⟨.CallStaticObjectMethodA (some "Helper") none [some 0, a], env1⟩
      ∧ msgNoStaticMethod "parallelize" sigParallelize ∈ env1.out)
    ∧ (∃ env1, collect bareVM (some 0) ⟨[], 0⟩ envConf
        = .error ⟨.GetStaticMethodID none "collect" sigCollect, env1⟩
      ∧ msgNoClass "Helper" ∈ env1.out)
    ∧ (∃ env1, collect noMethodVM (some 0) ⟨[], 0⟩ envConf
        = .error ⟨.CallStaticObjectMethodA (some "Helper") none [some 0], env1⟩
      ∧ msgNoStaticMethod "collect" sigCollect ∈ env1.out)
    ∧ (∃ env1, rddmap bareVM (some 0) [7] 1 envConf
        = .error ⟨.GetStaticMethodID none "map" sigMap, env1⟩
      ∧ msgNoClass "Helper" ∈ env1.out)
    ∧ (∃ a env1, rddmap noMethodVM (some 0) [7] 1 envConf
        = .error ⟨.CallStaticObjectMethodA (some "Helper") none [some 0, a], env1⟩
      ∧ msgNoStaticMethod "map" sigMap ∈ env1.out) :=
  have h1 := notFound_is_passed_on noMethodVM envConf (some 0) (some 0) (some 0) [1, 2] [7] 2 1
    ⟨[], 0⟩ "app"
  have h2 := notFound_is_passed_on bareVM envConf (some 0) (some 0) (some 0) [1, 2] [7] 2 1
    ⟨[], 0⟩ "app"
  have h3 := notFound_is_passed_on noSetterVM envConf (some 0) (some 0) (some 0) [1, 2] [7] 2 1
    ⟨[], 0⟩ "app"
  ⟨(notFound_is_passed_on noMethodVM env0 (some 0) (some 0) (some 0) [1, 2] [7] 2 1
      ⟨[], 0⟩ "app").1 _ _ _ (by decide),
    h2.2.1 (by decide),
    h1.2.2.1 (by decide) (by decide),
    h2.2.2.2.1 (by decide),
    h1.2.2.2.2.1 (by decide) (by decide),
    h3.2.2.2.2.2.1 (by decide) (by decide) (by decide),
    h2.2.2.2.2.2.2.1 (by decide),
    h1.2.2.2.2.2.2.2.1 (by decide) (by decide) (by decide),
    h2.2.2.2.2.2.2.2.2.1 (by decide),
    h1.2.2.2.2.2.2.2.2.2.1 (by decide) (by decide),
    h2.2.2.2.2.2.2.2.2.2.2.1 (by decide) (by decide),
    h1.2.2.2.2.2.2.2.2.2.2.2 (by decide) (by decide) (by decide)⟩

/-- C5 as stated fails: on a runtime where the helper class exists but its
`parallelize` method is not found, `parallelize` does not return null; it
goes on to `CallStaticObjectMethodA` with the null method id.  Likewise
`newObject` calls `NewObjectA` with the null constructor id. -/
theorem notFound_reaches_invocation :
    (∃ f, parallelize noMethodVM (some 0) [1, 2, 3] 3 envConf = .error f
      ∧ f.call.invokesNull = true)
    ∧ (∃ f, newObject noMethodVM (some "org/apache/spark/SparkConf") "()V" [] env0 = .error f
      ∧ f.call.invokesNull = true) :=
  ⟨⟨_, rfl, rfl⟩, ⟨_, rfl, rfl⟩⟩

/-- C6, evaluated where it fails.  When the helper's `collect` returns null
and nothing is pending, `collect` goes on to call `GetArrayLength` on the
null array.  When the constructor of the configuration fails, `newObject`
returns null and `newSparkConf` calls `setAppName` on the null receiver. -/
theorem null_reference_is_used :
    (∃ f, collect nullVM (some 0) ⟨[], 0⟩ envRDD = .error f ∧ f.call.readsNullArray = true
        ∧ f.call = .GetArrayLength none ∧ f.env.pending = none)
    ∧ (∃ f, newSparkConf throwingVM "app" env0 = .error f ∧ f.call.invokesNull = true
        ∧ ∃ m args, f.call = .CallObjectMethodA none m args) :=
  ⟨⟨_, rfl, rfl, rfl, rfl⟩, ⟨_, rfl, rfl, _, _, rfl⟩⟩

/-- C7, evaluated where it fails: the constructor of `JavaSparkContext` throws.
Nothing is pending when `newSparkContext` is entered; it returns null with the
exception still pending. -/
theorem newSparkContext_leaves_exception_pending :
    envConf.pending = none
    ∧ ∃ env1, newSparkContext throwingVM (some 0) envConf = .ok (none, env1)
        ∧ env1.pending = some "org/apache/spark/SparkException" := by
  exact ⟨rfl, _, rfl, rfl⟩

/-- C8 (amended): for every int32 sequence `xs` of at most `2^31 - 1` elements,
the empty one included, when the managed allocation succeeds
`newIntArray(|xs|, xs)` returns a non-null managed int array whose length is
`|xs|` and whose elements are `xs`; reading it back as `collect` does (array
length, then all elements) gives exactly `xs`. -/
theorem newIntArray_roundtrip (vm : JVM) (xs : List Int) (env : JEnv)
    (hlen : xs.length < 2 ^ 31) (halloc : vm.allocOk .int xs.length env.heap = true) :
    ∃ a env1, newIntArray vm xs.length xs env = .ok (some a, env1)
      ∧ env1.heap[a]? = some (.array .int xs)
      ∧ collectRead (some a) env1 = .ok ({ buf := xs, len := xs.length }, env1) := by
  have hok := newIntArray_ok vm xs.length xs env xs.length (toJsize_of_lt hlen) halloc
    (le_refl _)
  rw [List.take_length] at hok
  have hget : ({ jniEnv env with heap := env.heap ++ [JObject.array .int xs] } : JEnv).heap[
      env.heap.length]? = some (.array .int xs) := by
    simp
  exact ⟨env.heap.length, _, hok, hget, collectRead_intArray _ _ _ hget⟩

/-- Witness for C8 (amended): the sequence `[5, 6, 7]` on the local runtime,
in a heap that already holds an object. -/
theorem newIntArray_roundtrip_witness :
    ∃ a env1, newIntArray localVM ([5, 6, 7] : List Int).length [5, 6, 7] envRDD
        = .ok (some a, env1)
      ∧ env1.heap[a]? = some (.array .int [5, 6, 7])
      ∧ collectRead (some a) env1
          = .ok ({ buf := [5, 6, 7], len := ([5, 6, 7] : List Int).length }, env1) :=
  newIntArray_roundtrip localVM [5, 6, 7] envRDD (by decide) rfl

/-- C8 as stated fails: for a sequence of `2^32 + 1` elements the size is
narrowed to the 32-bit `jsize` value 1, the allocation succeeds, and the
array returned has one element, not `2^32 + 1`. -/
theorem newIntArray_narrows_size :
    ∃ a env1,
      newIntArray localVM (List.replicate (2 ^ 32 + 1) (0 : Int)).length
          (List.replicate (2 ^ 32 + 1) 0) env0 = .ok (some a, env1)
      ∧ GetArrayLength (some a) env1 = .ok 1
      ∧ (1 : Nat) ≠ (List.replicate (2 ^ 32 + 1) (0 : Int)).length := by
  have hj : toJsize (List.replicate (2 ^ 32 + 1) (0 : Int)).length = ((1 : Nat) : Int) := by
    rw [List.length_replicate]; decide
  have hb : 1 ≤ (List.replicate (2 ^ 32 + 1) (0 : Int)).length := by
    rw [List.length_replicate]; decide
  have hok := newIntArray_ok localVM _ (List.replicate (2 ^ 32 + 1) (0 : Int)) env0 1 hj rfl hb
  refine ⟨_, _, hok, ?_, ?_⟩
  · have hget : ({ jniEnv env0 with
        heap := env0.heap ++ [JObject.array .int
          ((List.replicate (2 ^ 32 + 1) (0 : Int)).take 1)] } : JEnv).heap[env0.heap.length]?
        = some (.array .int ((List.replicate (2 ^ 32 + 1) (0 : Int)).take 1)) := by
      simp only [List.getElem?_concat_length]
    simp only [GetArrayLength, hget, List.length_take, List.length_replicate]
    rfl
  · rw [List.length_replicate]; decide

/-- C10, evaluated where it fails: `newDoubleArray(1, [1.5])` (the double given
by its bit pattern).  The array it allocates is a byte array of length 1, and
the `SetDoubleArrayRegion` call that follows is made on that byte array. -/
theorem newDoubleArray_allocates_bytes :
    ∃ env1, newDoubleArray localVM 1 [4609434218613702656] env0
        = .error ⟨.SetArrayRegion .double (some 0) 0 1, env1⟩
      ∧ env1.heap[0]? = some (.array .byte [0]) := by
  exact ⟨_, rfl, rfl⟩

end Sparkle
